import Mathlib

set_option maxHeartbeats 1000000

/-!
Shallow embedding of the aioexabgp announcer (cooperlees/aioexabgp).

The Python sources embedded here:
  aioexabgp/utils.py                 - run_cmd
  aioexabgp/announcer/healthcheck.py - PingChecker
  aioexabgp/announcer/fibs.py        - FibOperation, FibPrefix, LinuxFib,
                                       _update_learnt_routes, fib_operation_runner
  aioexabgp/announcer/__init__.py    - Announcer.advertise, Announcer.add_routes,
                                       Announcer.remove_internal_networks
  aioexabgp/exabgpparser.py          - ExaBGPParser.parse / parse_update

Machine integers are modelled as Nat; IPv4/IPv6 addresses as 32/128 bit
naturals.  External effects (subprocess completion, print success, per-FIB
command results) are passed in explicitly as outcome values / oracles.
We model the Linux platform (platform.system() is not "Darwin").
-/

/-- IPv4 (32-bit) or IPv6 (128-bit) host address, as in Python `ipaddress`
(`ip_address`). -/
inductive IPAddress
  | v4 (a : Nat)
  | v6 (a : Nat)
deriving DecidableEq

/-- `ipaddress` attribute `.version` for addresses. -/
def IPAddress.version : IPAddress → Nat
  | .v4 _ => 4
  | .v6 _ => 6

/-- IPv4 or IPv6 network: network address plus prefix length, as produced by
Python `ip_network` (which stores the masked network address). -/
inductive IPNetwork
  | v4 (addr plen : Nat)
  | v6 (addr plen : Nat)
deriving DecidableEq

/-- `ipaddress` attribute `.version` for networks. -/
def IPNetwork.version : IPNetwork → Nat
  | .v4 _ _ => 4
  | .v6 _ _ => 6

/-- Network containment over canonical (masked) networks of the same IP
version: `net_contains a b` holds when `b` is a subnet of (or equal to) `a`.
Python's `_BaseNetwork.__contains__` / `subnet_of` yield `False` across
versions. -/
def net_contains : IPNetwork → IPNetwork → Bool
  | .v4 aa ap, .v4 ba bp => decide (ap ≤ bp) && decide (ba / 2 ^ (32 - ap) = aa / 2 ^ (32 - ap))
  | .v6 aa ap, .v6 ba bp => decide (ap ≤ bp) && decide (ba / 2 ^ (128 - ap) = aa / 2 ^ (128 - ap))
  | _, _ => false

/-- `ipaddress._BaseNetwork.overlaps`: for canonical networks one overlaps the
other iff one contains the other. -/
def IPNetwork.overlaps (a b : IPNetwork) : Bool :=
  net_contains a b || net_contains b a

/-- Membership of a network in `{ip_network("0.0.0.0/0"), ip_network("::/0")}`
(`Fib.DEFAULTS` in fibs.py, `default_prefixes` in announcer/__init__.py).
In Python, cross-version `==` on networks is `False`, so this is equality
with the default network of the same version. -/
def is_default (n : IPNetwork) : Bool :=
  decide (n = IPNetwork.v4 0 0) || decide (n = IPNetwork.v6 0 0)

/-- `FibOperation` enum from fibs.py. -/
inductive FibOperation
  | NOTHING
  | ADD_ROUTE
  | REMOVE_ROUTE
  | REMOVE_ALL_ROUTES
deriving DecidableEq

/-- `FibPrefix` NamedTuple from fibs.py (the spec calls it FibIntent):
immutable (prefix, next_hop, operation) triple.  The Python field named
`prefix` is called `net` here. -/
structure FibIntent where
  net : IPNetwork
  next_hop : Option IPAddress
  operation : FibOperation
deriving DecidableEq

/-- Textual rendering of one octet group. -/
def natHex (n : Nat) : String :=
  String.mk (Nat.toDigits 16 n)

/-- Textual rendering of an address: models Python `str(addr)` /
`addr.compressed` from the `ipaddress` stdlib (outside this repository) as a
concrete injective rendering; no claim inspects the glyphs of an address. -/
def ipStr : IPAddress → String
  | .v4 a =>
      toString (a / 2 ^ 24 % 256) ++ "." ++ toString (a / 2 ^ 16 % 256) ++ "."
        ++ toString (a / 2 ^ 8 % 256) ++ "." ++ toString (a % 256)
  | .v6 a =>
      natHex (a / 2 ^ 112 % 65536) ++ ":" ++ natHex (a / 2 ^ 96 % 65536) ++ ":"
        ++ natHex (a / 2 ^ 80 % 65536) ++ ":" ++ natHex (a / 2 ^ 64 % 65536) ++ ":"
        ++ natHex (a / 2 ^ 48 % 65536) ++ ":" ++ natHex (a / 2 ^ 32 % 65536) ++ ":"
        ++ natHex (a / 2 ^ 16 % 65536) ++ ":" ++ natHex (a % 65536)

/-- Textual rendering of a network (`str(network)` from the stdlib). -/
def netStr : IPNetwork → String
  | .v4 a p => ipStr (.v4 a) ++ "/" ++ toString p
  | .v6 a p => ipStr (.v6 a) ++ "/" ++ toString p

/-- `subprocess.CompletedProcess` as used by utils.run_cmd (str streams). -/
structure CompletedProcess where
  args : List String
  returncode : Int
  stdout : String
  stderr : String
deriving DecidableEq

/-- Outcome of the spawned child process, abstracting the OS: either
`process.communicate()` finished within the caller's timeout (with the
process's returncode, which asyncio reports as an Option, and its decoded
streams), or `asyncio.wait_for` raised `asyncio.TimeoutError`. -/
inductive ProcOutcome
  | completed (returncode : Option Int) (stdout stderr : String)
  | timedOut
deriving DecidableEq

/-- utils.py run_cmd: always returns a CompletedProcess; an
`asyncio.TimeoutError` from `wait_for` is caught and turned into
returncode -1 / stdout "" / stderr "TIMEOUT"; a `None` returncode becomes
-2 / "" / "Returncode is None". -/
def run_command (cmd : List String) (timeout : Nat) (outcome : ProcOutcome) : CompletedProcess :=
  match outcome with
  | .timedOut =>
      { args := cmd, returncode := -1, stdout := "", stderr := "TIMEOUT" }
  | .completed none _ _ =>
      { args := cmd, returncode := -2, stdout := "", stderr := "Returncode is None" }
  | .completed (some rc) out err =>
      { args := cmd, returncode := rc, stdout := out, stderr := err }

/-- healthcheck.py PingChecker configuration: target_ip, count (default 2),
timeout (default 5), wait (default timeout - 1). -/
structure PingChecker where
  target_ip : IPAddress
  count : Nat
  timeout : Nat
  wait : Int
deriving DecidableEq

/-- The argv built inside PingChecker.do_ping on a non-Darwin platform:
ping6/ping, "-w" wait, "-c" count, target. -/
def PingChecker.ping_cmd (c : PingChecker) : List String :=
  (if c.target_ip.version = 6 then ["ping6"] else ["ping"])
    ++ ["-w", toString c.wait] ++ ["-c", toString c.count, ipStr c.target_ip]

/-- PingChecker.do_ping: returns `await run_cmd(cmd, self.timeout)` directly,
i.e. the whole CompletedProcess (despite the `-> bool` annotation in the
source). -/
def PingChecker.do_ping (c : PingChecker) (outcome : ProcOutcome) : CompletedProcess :=
  run_command c.ping_cmd c.timeout outcome

/-- Python truthiness of a `subprocess.CompletedProcess`: the class defines
neither `__bool__` nor `__len__`, so every instance is truthy. -/
def CompletedProcess.isTruthy (_ : CompletedProcess) : Bool := true

/-- What happened during one run of PingChecker.check: either do_ping
returned (with the given process outcome), or an uncaught exception was
raised inside the awaited call (e.g. the ping binary missing). -/
inductive PingRun
  | ran (outcome : ProcOutcome)
  | raised
deriving DecidableEq

/-- PingChecker.check: `if await self.do_ping(): return True` then
`except Exception: ...` and a final `return False`.  The `if` tests the
truthiness of the CompletedProcess that do_ping returns. -/
def PingChecker.check (c : PingChecker) (run : PingRun) : Bool :=
  match run with
  | .ran outcome => if (c.do_ping outcome).isTruthy then true else false
  | .raised => false

/-- The non-`attribute` portion of `neighbor.message.update` in a decoded
update message, structured: `announces` models the `announce` entry
(family, then next_hop keyed lists of NLRIs), `withdraws` the `withdraw`
entry (family, then NLRI list). -/
structure UpdateMsg where
  direction : String
  peer : IPAddress
  announces : List (String × List (IPAddress × List IPNetwork))
  withdraws : List (String × List IPNetwork)
deriving DecidableEq

/-- The fields of a decoded exabgp JSON message that ExaBGPParser.parse
reads, dispatched on the `type` field: a `state` message (peer and
`neighbor.state`), an `update` message, or any other type. -/
inductive ExaBody
  | state (peer : IPAddress) (st : String)
  | update (u : UpdateMsg)
  | other (t : String)
deriving DecidableEq

/-- A decoded message: the `exabgp` version field plus the body. -/
structure ExaMsg where
  exabgp : String
  body : ExaBody
deriving DecidableEq

/-- ASCII lowercase of one character, as Python str.lower acts on the
ASCII state names compared by the parser. -/
def lowerChar (c : Char) : Char :=
  if 65 ≤ c.toNat ∧ c.toNat ≤ 90 then Char.ofNat (c.toNat + 32) else c

/-- Python str.lower (stdlib, outside this repository), modelled for the
ASCII strings the parser compares. -/
def pyLower (s : String) : String := String.mk (s.data.map lowerChar)

/-- ExaBGPParser.SUPPORTED_API_VERSION. -/
def SUPPORTED_API_VERSION : String := "4.0.1"

/-- The error exabgpparser.py raises (a ValueError, "Exabgp JSON version has
changed from know tested version"); the spec names it UnsupportedApiVersion. -/
inductive ApiError
  | UnsupportedApiVersion
deriving DecidableEq

/-- exabgpparser.py DEFAULT_FAMALIES. -/
def DEFAULT_FAMALIES : List String := ["ipv4 unicast", "ipv6 unicast"]

/-- ExaBGPParser.parse_update: returns [] unless direction == "receive";
otherwise walks the update's non-`attribute` entries, skipping families not
in wanted_families; `announce` yields one ADD_ROUTE per NLRI with the
announced next-hop, `withdraw` one REMOVE_ROUTE per NLRI with the peer as
next-hop.  (The source walks the entries in dict order and catches
KeyError/ValueError; on the structured message no such error arises.) -/
def parse_update (u : UpdateMsg) (wanted_families : List String) : List FibIntent :=
  if u.direction ≠ "receive" then []
  else
    (u.announces.flatMap fun fam =>
      if fam.1 ∉ wanted_families then []
      else fam.2.flatMap fun nh =>
        nh.2.map fun nlri => FibIntent.mk nlri (some nh.1) FibOperation.ADD_ROUTE)
    ++ (u.withdraws.flatMap fun fam =>
      if fam.1 ∉ wanted_families then []
      else fam.2.map fun nlri => FibIntent.mk nlri (some u.peer) FibOperation.REMOVE_ROUTE)

/-- ExaBGPParser.parse: raises for a version other than "4.0.1" (modelled
as Except.error), else dispatches on the message type.  `state` messages:
"connected" logs only; "down" yields one REMOVE_ALL_ROUTES intent with
prefix ::/0 and the peer as next-hop; "up" yields one ADD_ROUTE per member
of the supplied healthy-prefix set (empty set: no intents); any other state
logs only.  `update` goes to parse_update; other types return []. -/
def exabgp_parse (msg : ExaMsg) (healthy : List IPNetwork) :
    Except ApiError (List FibIntent) :=
  if msg.exabgp ≠ SUPPORTED_API_VERSION then Except.error ApiError.UnsupportedApiVersion
  else Except.ok <|
    match msg.body with
    | .state peer st =>
        if pyLower st = "connected" then []
        else if pyLower st = "down" then
          [FibIntent.mk (IPNetwork.v6 0 0) (some peer) FibOperation.REMOVE_ALL_ROUTES]
        else if pyLower st = "up" then
          if healthy.isEmpty then []
          else healthy.map fun p => FibIntent.mk p (some peer) FibOperation.ADD_ROUTE
        else []
    | .update u => parse_update u DEFAULT_FAMALIES
    | .other _ => []

/-- LinuxFib.IP_CMD on a non-Darwin platform. -/
def IP_CMD : String := "/sbin/ip"

/-- LinuxFib.SUDO_CMD on a non-Darwin platform. -/
def SUDO_CMD : String := "/usr/bin/sudo"

/-- LinuxFib.METRIC - the metric marking routes this agent installs. -/
def METRIC : Nat := 31337

/-- LinuxFib.gen_route_command (fibs.py): optional sudo, ip, the version
flag of the prefix, "route", the operation, "default" for a default prefix
else the textual prefix, "via", "inet6" appended only when a v4 prefix has
a v6 next-hop, the next-hop, "metric", "31337". -/
def gen_route_command (use_sudo : Bool) (op : String) (net : IPNetwork)
    (next_hop : IPAddress) : List String :=
  (if use_sudo then [SUDO_CMD] else [])
    ++ [IP_CMD, "-" ++ toString net.version, "route", op,
        if is_default net then "default" else netStr net, "via"]
    ++ (if net.version = 4 ∧ next_hop.version = 6 then ["inet6"] else [])
    ++ [ipStr next_hop, "metric", toString METRIC]

/-- Modelled from the spec, section 4.6.1: the token table the claim compares
gen_route_command against ("-4" or "-6" matching the prefix version; the
literal "inet6" inserted only when a v4 prefix has a v6 next-hop). -/
def route_command_table (use_sudo : Bool) (op : String) (net : IPNetwork)
    (next_hop : IPAddress) : List String :=
  (if use_sudo then [SUDO_CMD] else [])
    ++ [IP_CMD, if net.version = 4 then "-4" else "-6", "route", op]
    ++ [if is_default net then "default" else netStr net]
    ++ ["via"]
    ++ (if net.version = 4 ∧ next_hop.version = 6 then ["inet6"] else [])
    ++ [ipStr next_hop]
    ++ ["metric", "31337"]

/-- The mirror of BGP-learnt routes (`BGP_LEARNT_PREFIXES` in fibs.py): a
dict from network to set of next-hops, modelled as an insertion-ordered
association list whose values are duplicate-free lists. -/
abbrev Mirror := List (IPNetwork × List IPAddress)

/-- Dict lookup `BGP_LEARNT_PREFIXES[p]` / membership test `p in ...`. -/
def mget (m : Mirror) (p : IPNetwork) : Option (List IPAddress) :=
  (m.find? fun kv => decide (kv.1 = p)).map fun kv => kv.2

/-- Dict store `BGP_LEARNT_PREFIXES[p] = v` (overwrite in place, else append,
matching Python dict insertion order). -/
def mset (m : Mirror) (p : IPNetwork) (v : List IPAddress) : Mirror :=
  if m.any fun kv => decide (kv.1 = p) then
    m.map fun kv => if kv.1 = p then (p, v) else kv
  else m ++ [(p, v)]

/-- Dict delete `del BGP_LEARNT_PREFIXES[p]`. -/
def mdel (m : Mirror) (p : IPNetwork) : Mirror :=
  m.filter fun kv => decide (kv.1 ≠ p)

/-- Python set add (no duplicates). -/
def setAdd (s : List IPAddress) (a : IPAddress) : List IPAddress :=
  if a ∈ s then s else s ++ [a]

/-- One iteration of the loop in _update_learnt_routes (fibs.py), carrying
(mirror, add_count, del_count).  ADD_ROUTE: an absent prefix gets a fresh
set - `{next_hop}` when a next-hop is present, the empty set when the
next-hop is None - and add_count grows either way; a present prefix gets
the next-hop added when present, else the error is logged and the intent
skipped.  REMOVE_ROUTE: an absent prefix logs; else the next-hop (if a
member) is discarded and the key dropped when its set becomes empty, with
del_count grown iff either happened.  REMOVE_ALL_ROUTES: del_count grows by
the dict size and every key is deleted.  NOTHING: logged only. -/
def update_step (st : Mirror × Nat × Nat) (fib_op : FibIntent) : Mirror × Nat × Nat :=
  let m := st.1
  let add_count := st.2.1
  let del_count := st.2.2
  match fib_op.operation with
  | FibOperation.ADD_ROUTE =>
      match mget m fib_op.net, fib_op.next_hop with
      | none, some nh => (mset m fib_op.net [nh], add_count + 1, del_count)
      | none, none => (mset m fib_op.net [], add_count + 1, del_count)
      | some s, some nh => (mset m fib_op.net (setAdd s nh), add_count + 1, del_count)
      | some _, none => (m, add_count, del_count)
  | FibOperation.REMOVE_ROUTE =>
      match mget m fib_op.net with
      | none => (m, add_count, del_count)
      | some s =>
          let removed : Bool :=
            match fib_op.next_hop with
            | some nh => decide (nh ∈ s)
            | none => false
          let s1 :=
            match fib_op.next_hop with
            | some nh => s.erase nh
            | none => s
          let emptied := s1.isEmpty
          let m1 := if emptied then mdel m fib_op.net else mset m fib_op.net s1
          if removed || emptied then (m1, add_count, del_count + 1)
          else (m1, add_count, del_count)
  | FibOperation.REMOVE_ALL_ROUTES => ([], add_count, del_count + m.length)
  | FibOperation.NOTHING => (m, add_count, del_count)

/-- _update_learnt_routes (fibs.py): folds the intents over the mirror,
returning the new mirror and the (add_count, del_count) pair the source
returns. -/
def _update_learnt_routes (fib_operations : List FibIntent) (m : Mirror) :
    Mirror × Nat × Nat :=
  fib_operations.foldl update_step (m, 0, 0)

/-- The `route_tasks` list fib_operation_runner builds for one intent: one
awaitable per active FIB; ADD_ROUTE/REMOVE_ROUTE with a None next-hop are
logged and skipped, REMOVE_ALL_ROUTES always runs, other operations are
logged as unhandled.  `fib_result` abstracts each backend's boolean result
for the intent. -/
def route_tasks_for (fib_names : List String) (fib_result : String → FibIntent → Bool)
    (intent : FibIntent) : List Bool :=
  fib_names.filterMap fun f =>
    match intent.operation, intent.next_hop with
    | FibOperation.ADD_ROUTE, some _ => some (fib_result f intent)
    | FibOperation.ADD_ROUTE, none => none
    | FibOperation.REMOVE_ROUTE, some _ => some (fib_result f intent)
    | FibOperation.REMOVE_ROUTE, none => none
    | FibOperation.REMOVE_ALL_ROUTES, _ => some (fib_result f intent)
    | FibOperation.NOTHING, _ => none

/-- fib_operation_runner (fibs.py), tracking the learnt-route mirror: for
each intent of the batch in order (the `not fib_operation.prefix` guard is
vacuous - Python network objects are always truthy), build the route tasks;
with no tasks, or under dry_run, continue; else gather the results and,
when all succeeded, call _update_learnt_routes on the WHOLE batch
(`fib_operations`, not the single intent - as the source does). -/
def fib_operation_runner (fib_names : List String)
    (fib_result : String → FibIntent → Bool) (fib_operations : List FibIntent)
    (dry_run : Bool) (mirror : Mirror) : Mirror :=
  fib_operations.foldl
    (fun m fib_operation =>
      let route_tasks := route_tasks_for fib_names fib_result fib_operation
      if route_tasks.isEmpty then m
      else if dry_run then m
      else if route_tasks.all id then (_update_learnt_routes fib_operations m).1
      else m)
    mirror

/-- Network address field accessor. -/
def netAddr : IPNetwork → Nat
  | .v4 a _ => a
  | .v6 a _ => a

/-- Network prefix-length accessor. -/
def netPlen : IPNetwork → Nat
  | .v4 _ p => p
  | .v6 _ p => p

/-- Sort key for an optional next-hop (None sorts first). -/
def nhKey : Option IPAddress → Nat
  | none => 0
  | some (.v4 a) => a + 1
  | some (.v6 a) => a + 1

/-- Sort key for a FibOperation (enum value order). -/
def opKey : FibOperation → Nat
  | .NOTHING => 0
  | .ADD_ROUTE => 1
  | .REMOVE_ROUTE => 2
  | .REMOVE_ALL_ROUTES => 3

/-- Comparator modelling Python tuple ordering of FibPrefix values (compared
field by field) on the per-version buckets sorted by
remove_internal_networks; agrees with the source's `sorted()` wherever the
Python comparison is defined. -/
def fibLe (a b : FibIntent) : Bool :=
  if netAddr a.net ≠ netAddr b.net then decide (netAddr a.net < netAddr b.net)
  else if netPlen a.net ≠ netPlen b.net then decide (netPlen a.net < netPlen b.net)
  else if nhKey a.next_hop ≠ nhKey b.next_hop then decide (nhKey a.next_hop < nhKey b.next_hop)
  else decide (opKey a.operation ≤ opKey b.operation)

/-- The per-intent keep/drop decision inside
Announcer.remove_internal_networks: a default prefix is kept when
allow_default is set (the `continue` into the valid set); a prefix equal to
a configured advertise network is dropped; a prefix overlapping a
same-version configured advertise network is dropped (`is_a_subnet`);
everything else is kept. -/
def keep_redist (advertise_nets : List IPNetwork) (allow_default : Bool)
    (ap : FibIntent) : Bool :=
  if allow_default && is_default ap.net then true
  else if ap.net ∈ advertise_nets then false
  else !(advertise_nets.any fun adv =>
    decide (adv.version = ap.net.version) && adv.overlaps ap.net)

/-- Announcer.remove_internal_networks: empty input returned as is; else the
kept intents are bucketed into per-version sets (modelled as dedup) and the
result is sorted(v4 set) ++ sorted(v6 set). -/
def remove_internal_networks (advertise_nets : List IPNetwork)
    (allow_default : Bool) (bgp_intents : List FibIntent) : List FibIntent :=
  if bgp_intents.isEmpty then bgp_intents
  else
    let v4set := (bgp_intents.filter fun a =>
      keep_redist advertise_nets allow_default a && decide (a.net.version = 4)).dedup
    let v6set := (bgp_intents.filter fun a =>
      keep_redist advertise_nets allow_default a && decide (a.net.version = 6)).dedup
    v4set.mergeSort fibLe ++ v6set.mergeSort fibLe

/-- The classification loop of Announcer.advertise: advertise_entries lists
(prefix, number of configured checkers) in dict order; healthcheck_results
is the flattened gather of every checker's result in scheduling order.  The
slice taken for a prefix is results[start_at : start_at + len(checks)], and
the loop then advances start_at by ONE (the source's `start_at += 1`), not
by len(checks).  The first operand of the `and` in the source is a Python
map object, which is always truthy, so the test reduces to
all(my_results). -/
def advertise_classify (advertise_entries : List (IPNetwork × Nat))
    (healthcheck_results : List Bool) : List IPNetwork × List IPNetwork :=
  (advertise_entries.foldl
    (fun acc pc =>
      let start_at := acc.1
      let my_results := (healthcheck_results.drop start_at).take pc.2
      if my_results.all id then (start_at + 1, acc.2.1 ++ [pc.1], acc.2.2)
      else (start_at + 1, acc.2.1, acc.2.2 ++ [pc.1]))
    (0, ([] : List IPNetwork), ([] : List IPNetwork))).2

/-- Announcer.add_routes: prints one announce line per prefix and counts the
prefixes whose nonblock_print succeeded; print_ok abstracts whether the
write for a given prefix completed within print_timeout. -/
def add_routes (print_ok : IPNetwork → Bool) (nets : List IPNetwork) : Nat :=
  nets.foldl (fun success p => if print_ok p then success + 1 else success) 0

/-- The healthy_prefixes update of one Announcer.advertise cycle:
when advertise_routes is non-empty, add_routes is called and a zero return
empties the healthy set while a non-zero return sets it to
set(advertise_routes); when advertise_routes is empty and withdraw_routes
is non-empty the healthy set is emptied (withdraw print failures are only
logged); with both empty the healthy set is untouched. -/
def advertise_cycle (print_ok : IPNetwork → Bool)
    (advertise_entries : List (IPNetwork × Nat)) (healthcheck_results : List Bool)
    (healthy0 : List IPNetwork) : List IPNetwork :=
  let routes := advertise_classify advertise_entries healthcheck_results
  let advertise_routes := routes.1
  let withdraw_routes := routes.2
  let healthy1 :=
    if advertise_routes.isEmpty then healthy0
    else if add_routes print_ok advertise_routes = 0 then []
    else advertise_routes
  if ¬withdraw_routes.isEmpty ∧ advertise_routes.isEmpty then [] else healthy1

/-- Concrete network 10.0.0.0/8. -/
def exNetA : IPNetwork := IPNetwork.v4 (10 * 2 ^ 24) 8

/-- Concrete network 10.0.1.0/24, a subnet of 10.0.0.0/8. -/
def exNetB : IPNetwork := IPNetwork.v4 (10 * 2 ^ 24 + 256) 24

/-- Concrete network 192.168.0.0/24, disjoint from 10.0.0.0/8. -/
def exNetC : IPNetwork := IPNetwork.v4 (192 * 2 ^ 24 + 168 * 2 ^ 16) 24

/-- Concrete v4 next-hop 10.1.1.1. -/
def exNh : IPAddress := IPAddress.v4 (10 * 2 ^ 24 + 2 ^ 16 + 2 ^ 8 + 1)

/-- Concrete v6 peer fc00::1. -/
def exPeer : IPAddress := IPAddress.v6 (0xfc00 * 2 ^ 112 + 1)

/-- Concrete print oracle that fails exactly for 10.0.0.0/8. -/
def exPrintOk (n : IPNetwork) : Bool := decide (n ≠ exNetA)

/-- Concrete per-FIB result oracle that fails exactly for intents on
10.0.0.0/8. -/
def exFibResult (_ : String) (intent : FibIntent) : Bool := decide (intent.net ≠ exNetA)

theorem add_routes_eq_countP (print_ok : IPNetwork → Bool) (l : List IPNetwork) :
    add_routes print_ok l = l.countP print_ok := by
  suffices h : ∀ n : Nat,
      l.foldl (fun success p => if print_ok p then success + 1 else success) n
        = n + l.countP print_ok by
    simpa [add_routes] using h 0
  induction l with
  | nil => intro n; simp
  | cons a t ih =>
      intro n
      by_cases hf : print_ok a <;> simp [List.countP_cons, hf, ih] <;> omega

theorem ipnetwork_version_total (n : IPNetwork) : n.version = 4 ∨ n.version = 6 := by
  cases n <;> simp [IPNetwork.version]

theorem mem_remove_internal_networks (adv : List IPNetwork) (ad : Bool)
    (bgp : List FibIntent) (q : FibIntent) :
    q ∈ remove_internal_networks adv ad bgp ↔
      q ∈ bgp ∧ keep_redist adv ad q = true := by
  by_cases hb : bgp.isEmpty
  · obtain rfl : bgp = [] := List.isEmpty_iff.mp hb
    simp [remove_internal_networks]
  · have hbf : bgp.isEmpty = false := by simpa using hb
    constructor
    · intro hmem
      unfold remove_internal_networks at hmem
      rw [hbf] at hmem
      simp only [Bool.false_eq_true, if_false] at hmem
      rcases List.mem_append.mp hmem with h | h <;>
      · have h' := List.mem_filter.mp (List.mem_dedup.mp (List.mem_mergeSort.mp h))
        exact ⟨h'.1, ((Bool.and_eq_true _ _).mp h'.2).1⟩
    · rintro ⟨h1, h2⟩
      unfold remove_internal_networks
      rw [hbf]
      simp only [Bool.false_eq_true, if_false]
      refine List.mem_append.mpr ?_
      rcases ipnetwork_version_total q.net with hv | hv
      · exact Or.inl (List.mem_mergeSort.mpr (List.mem_dedup.mpr
          (List.mem_filter.mpr ⟨h1, by simp [h2, hv]⟩)))
      · exact Or.inr (List.mem_mergeSort.mpr (List.mem_dedup.mpr
          (List.mem_filter.mpr ⟨h1, by simp [h2, hv]⟩)))

theorem advertise_cycle_eq (print_ok : IPNetwork → Bool)
    (entries : List (IPNetwork × Nat)) (results : List Bool)
    (healthy0 : List IPNetwork)
    (hne : (advertise_classify entries results).1 ≠ []) :
    advertise_cycle print_ok entries results healthy0 =
      if add_routes print_ok (advertise_classify entries results).1 = 0 then []
      else (advertise_classify entries results).1 := by
  have h1 : (advertise_classify entries results).1.isEmpty = false := by
    simpa [List.isEmpty_iff] using hne
  unfold advertise_cycle
  simp [h1]

/-- C1: the claim says PingChecker.check() returns true iff the ping
subprocess exits 0, and false on non-zero exit or timeout.  Evaluating the
code at a run whose subprocess exits 1 and at a timed-out run: do_ping
hands back the CompletedProcess itself (returncode 1, resp. -1), which is
truthy, so check() returns true in both cases, contradicting the claim. -/
theorem pingchecker_check_truthy_eval :
    (PingChecker.do_ping ⟨exNh, 2, 5, 4⟩ (ProcOutcome.completed (some 1) "" "")).returncode = 1
    ∧ PingChecker.check ⟨exNh, 2, 5, 4⟩ (PingRun.ran (ProcOutcome.completed (some 1) "" "")) = true
    ∧ (PingChecker.do_ping ⟨exNh, 2, 5, 4⟩ ProcOutcome.timedOut).returncode = -1
    ∧ PingChecker.check ⟨exNh, 2, 5, 4⟩ (PingRun.ran ProcOutcome.timedOut) = true := by
  refine ⟨rfl, rfl, rfl, rfl⟩

/-- C2: the claim says the LearntRouteMirror is mutated only after every FIB
operation of the whole batch succeeded, a partial failure leaving it
unchanged.  Evaluating the code on a two-intent batch where the FIB
operation for 10.0.0.0/8 fails and the one for 10.0.1.0/24 succeeds: after
the second intent succeeds, fib_operation_runner applies the ENTIRE batch
to the mirror, so the mirror ends up holding both prefixes - including the
failed one - instead of staying empty. -/
theorem fib_runner_partial_failure_eval :
    exFibResult "Linux" ⟨exNetA, some exNh, FibOperation.ADD_ROUTE⟩ = false
    ∧ exFibResult "Linux" ⟨exNetB, some exNh, FibOperation.ADD_ROUTE⟩ = true
    ∧ fib_operation_runner ["Linux"] exFibResult
        [⟨exNetA, some exNh, FibOperation.ADD_ROUTE⟩,
         ⟨exNetB, some exNh, FibOperation.ADD_ROUTE⟩] false []
      = [(exNetA, [exNh]), (exNetB, [exNh])]
    ∧ ([(exNetA, [exNh]), (exNetB, [exNh])] : Mirror) ≠ [] := by
  refine ⟨by decide, by decide, by decide, by decide⟩

/-- C3 counterexample: the claim says any failed announce emission leaves
HealthyPrefixSet empty at cycle end.  With advertise set
[10.0.0.0/8, 10.0.1.0/24] and a print oracle that fails exactly for
10.0.0.0/8, one emission fails yet the cycle ends with the healthy set
equal to the whole advertise set, not the empty set. -/
theorem advertise_partial_failure_counterexample :
    exPrintOk exNetA = false
    ∧ advertise_cycle exPrintOk [(exNetA, 1), (exNetB, 1)] [true, true] []
        = [exNetA, exNetB]
    ∧ ([exNetA, exNetB] : List IPNetwork) ≠ [] := by
  refine ⟨by decide, by decide, by decide⟩

/-- C3 amended: in every advertise cycle with a non-empty advertise set, if
at least one announce emission succeeds then at cycle end the healthy set
equals the advertise set (even when other emissions failed), and if every
announce emission fails then the healthy set is empty. -/
theorem advertise_healthy_update_amended (print_ok : IPNetwork → Bool)
    (entries : List (IPNetwork × Nat)) (results : List Bool)
    (healthy0 : List IPNetwork)
    (hne : (advertise_classify entries results).1 ≠ []) :
    ((∃ p ∈ (advertise_classify entries results).1, print_ok p = true) →
        advertise_cycle print_ok entries results healthy0
          = (advertise_classify entries results).1)
    ∧ ((∀ p ∈ (advertise_classify entries results).1, print_ok p = false) →
        advertise_cycle print_ok entries results healthy0 = []) := by
  have he := advertise_cycle_eq print_ok entries results healthy0 hne
  rw [add_routes_eq_countP] at he
  constructor
  · rintro ⟨p, hp, hok⟩
    rw [he, if_neg]
    intro h0
    exact absurd (List.countP_eq_zero.mp h0 p hp) (by simp [hok])
  · intro hall
    rw [he, if_pos]
    exact List.countP_eq_zero.mpr fun a ha => by simp [hall a ha]

theorem advertise_healthy_update_amended_witness :
    advertise_cycle exPrintOk [(exNetA, 1), (exNetB, 1)] [true, true] []
      = [exNetA, exNetB] := by
  have h := advertise_healthy_update_amended exPrintOk
    [(exNetA, 1), (exNetB, 1)] [true, true] [] (by decide)
  exact h.1 ⟨exNetB, by decide, by decide⟩

/-- C4: the claim says a prefix goes on the advertise set iff the AND of
exactly its own checkers' results is true, also when prefixes have
differing checker counts.  Evaluating the code with 10.0.0.0/8 carrying two
checkers (both true) and 10.0.1.0/24 one checker (false): the loop advances
start_at by one instead of by len(checks), so 10.0.1.0/24 is classified
from 10.0.0.0/8's second result and lands on the advertise set although the
AND of its own results ([false]) is false. -/
theorem advertise_classify_misaligned_eval :
    advertise_classify [(exNetA, 2), (exNetB, 1)] [true, true, false]
      = ([exNetA, exNetB], [])
    ∧ ((([true, true, false].drop 2).take 1).all id = false) := by
  refine ⟨by decide, by decide⟩

/-- C5: the claim says every key of the mirror maps to a non-empty next-hop
set after _update_learnt_routes, an AddRoute with null next-hop being
logged and skipped.  Evaluating the code on a single AddRoute with null
next-hop for a prefix absent from the mirror: the source creates the key
with an EMPTY set and counts it as an add, so the key 10.0.1.0/24 is
present with no next-hops. -/
theorem update_learnt_routes_null_nexthop_eval :
    _update_learnt_routes [⟨exNetB, none, FibOperation.ADD_ROUTE⟩] []
      = ([(exNetB, [])], 1, 0)
    ∧ mget [(exNetB, [])] exNetB = some [] := by
  refine ⟨by decide, by decide⟩

/-- C6: for every configured advertise prefix p and learnt intent q of the
same IP version with p overlapping q's prefix, remove_internal_networks
keeps q iff q's prefix is a default route and allow_default is set;
otherwise q is dropped. -/
theorem internal_filter_drop (adv : List IPNetwork) (ad : Bool)
    (bgp : List FibIntent) (q : FibIntent) (p : IPNetwork)
    (hq : q ∈ bgp) (hp : p ∈ adv) (hver : p.version = q.net.version)
    (hov : p.overlaps q.net = true) :
    (is_default q.net = true ∧ ad = true →
        q ∈ remove_internal_networks adv ad bgp)
    ∧ (¬(is_default q.net = true ∧ ad = true) →
        q ∉ remove_internal_networks adv ad bgp) := by
  constructor
  · rintro ⟨hd, rfl⟩
    rw [mem_remove_internal_networks]
    exact ⟨hq, by simp [keep_redist, hd]⟩
  · intro hnot hmem
    rw [mem_remove_internal_networks] at hmem
    obtain ⟨-, hkeep⟩ := hmem
    unfold keep_redist at hkeep
    have hno : (ad && is_default q.net) = false := by
      cases had : ad <;> cases hdf : is_default q.net <;> simp_all
    rw [hno] at hkeep
    simp only [if_false, Bool.false_eq_true] at hkeep
    by_cases hin : q.net ∈ adv
    · simp [hin] at hkeep
    · simp only [hin, if_false, Bool.not_eq_true'] at hkeep
      have : adv.any (fun a => decide (a.version = q.net.version) && a.overlaps q.net) = true :=
        List.any_eq_true.mpr ⟨p, hp, by simp [hver, hov]⟩
      simp [this] at hkeep

theorem internal_filter_drop_witness :
    (⟨exNetB, some exNh, FibOperation.ADD_ROUTE⟩ : FibIntent) ∉
      remove_internal_networks [exNetA] false
        [⟨exNetB, some exNh, FibOperation.ADD_ROUTE⟩,
         ⟨exNetC, some exNh, FibOperation.ADD_ROUTE⟩] := by
  have h := internal_filter_drop [exNetA] false
    [⟨exNetB, some exNh, FibOperation.ADD_ROUTE⟩,
     ⟨exNetC, some exNh, FibOperation.ADD_ROUTE⟩]
    ⟨exNetB, some exNh, FibOperation.ADD_ROUTE⟩ exNetA
    (by decide) (by decide) (by decide) (by decide)
  exact h.2 (by decide)

/-- C7: for a supported-version state message: state "down" yields exactly
one REMOVE_ALL_ROUTES(::/0, peer) intent; state "up" with a non-empty
healthy set yields exactly one ADD_ROUTE(prefix, peer) per member; state
"up" with an empty healthy set yields no intents. -/
theorem parse_state_intents (peer : IPAddress) (healthy : List IPNetwork) :
    exabgp_parse ⟨SUPPORTED_API_VERSION, ExaBody.state peer "down"⟩ healthy
      = Except.ok [⟨IPNetwork.v6 0 0, some peer, FibOperation.REMOVE_ALL_ROUTES⟩]
    ∧ (healthy ≠ [] →
        exabgp_parse ⟨SUPPORTED_API_VERSION, ExaBody.state peer "up"⟩ healthy
          = Except.ok (healthy.map fun p => ⟨p, some peer, FibOperation.ADD_ROUTE⟩))
    ∧ exabgp_parse ⟨SUPPORTED_API_VERSION, ExaBody.state peer "up"⟩ []
      = Except.ok [] := by
  have hv : ¬(SUPPORTED_API_VERSION ≠ SUPPORTED_API_VERSION) := fun h => h rfl
  have hd : pyLower "down" = "down" := by decide
  have hu : pyLower "up" = "up" := by decide
  have hdc : "down" ≠ "connected" := by decide
  have huc : "up" ≠ "connected" := by decide
  have hud : "up" ≠ "down" := by decide
  refine ⟨?_, ?_, ?_⟩
  · simp [exabgp_parse, hv, hd, hdc]
  · intro h
    cases healthy with
    | nil => exact absurd rfl h
    | cons a t => simp [exabgp_parse, hv, hu, huc, hud]
  · simp [exabgp_parse, hv, hu, huc, hud]

theorem parse_state_intents_witness :
    exabgp_parse ⟨SUPPORTED_API_VERSION, ExaBody.state exPeer "up"⟩ [exNetA]
      = Except.ok [⟨exNetA, some exPeer, FibOperation.ADD_ROUTE⟩] := by
  exact (parse_state_intents exPeer [exNetA]).2.1 (by decide)

/-- C8: LinuxFib.gen_route_command yields, for add/delete and every
combination of v4/v6 prefix, v4/v6 next-hop and default/non-default prefix,
exactly the token sequence of spec section 4.6.1 (route_command_table). -/
theorem gen_route_command_matches_table (use_sudo : Bool) (op : String)
    (net : IPNetwork) (next_hop : IPAddress)
    (hop : op = "add" ∨ op = "delete") :
    gen_route_command use_sudo op net next_hop
      = route_command_table use_sudo op net next_hop := by
  have h4 : "-" ++ toString (4 : Nat) = "-4" := by decide
  have h6 : "-" ++ toString (6 : Nat) = "-6" := by decide
  have hm : toString (31337 : Nat) = "31337" := by decide
  cases net <;> cases next_hop <;>
    simp [gen_route_command, route_command_table, IPNetwork.version,
      IPAddress.version, METRIC, h4, h6, hm]

theorem gen_route_command_matches_table_witness :
    gen_route_command true "add" (IPNetwork.v4 0 0) (IPAddress.v6 0x69)
      = route_command_table true "add" (IPNetwork.v4 0 0) (IPAddress.v6 0x69) := by
  exact gen_route_command_matches_table true "add" (IPNetwork.v4 0 0)
    (IPAddress.v6 0x69) (Or.inl rfl)

/-- C9: for every decoded message whose exabgp field differs from "4.0.1",
parse fails with UnsupportedApiVersion (the ValueError the source raises,
propagated as Except.error) and no intent list is produced. -/
theorem parse_unsupported_version (msg : ExaMsg) (healthy : List IPNetwork)
    (h : msg.exabgp ≠ SUPPORTED_API_VERSION) :
    exabgp_parse msg healthy = Except.error ApiError.UnsupportedApiVersion := by
  unfold exabgp_parse
  simp [h]

theorem parse_unsupported_version_witness :
    exabgp_parse ⟨"3.4.0", ExaBody.other "notification"⟩ []
      = Except.error ApiError.UnsupportedApiVersion := by
  exact parse_unsupported_version ⟨"3.4.0", ExaBody.other "notification"⟩ [] (by decide)

/-- C10: run_cmd (run_command here) is total - it returns a CompletedProcess
for every outcome - and on subprocess timeout returns returncode -1, empty
stdout and stderr "TIMEOUT"; PingChecker.do_ping therefore observes a
timed-out ping as such an ordinary completed result. -/
theorem run_command_timeout_result (cmd : List String) (timeout : Nat)
    (c : PingChecker) :
    run_command cmd timeout ProcOutcome.timedOut
      = ⟨cmd, -1, "", "TIMEOUT"⟩
    ∧ PingChecker.do_ping c ProcOutcome.timedOut
      = ⟨c.ping_cmd, -1, "", "TIMEOUT"⟩ := by
  exact ⟨rfl, rfl⟩
